import Mathlib

/-
Verification of the computational core of the healthcare finance suite
(src/app.py): the Forecast Engine, the Scorecard Engine, the Equity
Adjustment Engine, the 12-period seasonal projection, and the
change-request session log.

Python float arithmetic is modelled by exact rational arithmetic (ℚ);
the seasonal projection, which uses `np.sin`, is modelled over ℝ.
Pandas division, which produces a non-finite float (inf or NaN) on a
zero denominator instead of raising, is modelled by an `Option ℚ`
returning `none` on a zero denominator.
-/

namespace HealthFinance

/-! ### Forecast Engine (src/app.py lines 826-1051)

Driver values are the raw widget values: `volume_change`,
`productivity_change`, `supply_inflation`, `wage_increase` are percent
sliders, `no_show_change` and `payer_mix_shift` are percentage-point
sliders, and the four FTE changes are FTE-unit number inputs. The code
divides the percent-style drivers by 100 where it uses them. -/

structure ForecastInputs where
  baseline_visits : ℚ
  baseline_reimbursement : ℚ
  baseline_monthly_cost : ℚ
  baseline_fte : ℚ
  volume_change : ℚ
  productivity_change : ℚ
  no_show_change : ℚ
  payer_mix_shift : ℚ
  supply_inflation : ℚ
  wage_increase : ℚ
  provider_fte_change : ℚ
  rn_fte_change : ℚ
  ma_fte_change : ℚ
  admin_fte_change : ℚ

/-- app.py line 950. -/
def effective_visits (f : ForecastInputs) : ℚ :=
  f.baseline_visits * (1 + f.volume_change / 100) * (1 + f.productivity_change / 100) *
    (1 - f.no_show_change / 100)

/-- app.py line 951: note the payer-mix slider value is multiplied by 0.02
directly, with no division by 100. -/
def new_reimbursement (f : ForecastInputs) : ℚ :=
  f.baseline_reimbursement * (1 + f.payer_mix_shift * 0.02)

/-- app.py line 952. -/
def forecast_monthly_revenue (f : ForecastInputs) : ℚ :=
  effective_visits f * new_reimbursement f

/-- app.py line 955. -/
def salary_portion (f : ForecastInputs) : ℚ := f.baseline_monthly_cost * 0.60

/-- app.py line 956. -/
def supply_portion (f : ForecastInputs) : ℚ := f.baseline_monthly_cost * 0.20

/-- app.py line 957. -/
def other_portion (f : ForecastInputs) : ℚ := f.baseline_monthly_cost * 0.20

/-- app.py lines 960-963: per-FTE per-period cost constants. -/
def provider_cost : ℚ := 20000

def rn_cost : ℚ := 8000

def ma_cost : ℚ := 4500

def admin_cost : ℚ := 4000

/-- app.py lines 965-970. -/
def fte_cost_change (f : ForecastInputs) : ℚ :=
  f.provider_fte_change * provider_cost + f.rn_fte_change * rn_cost +
    f.ma_fte_change * ma_cost + f.admin_fte_change * admin_cost

/-- app.py line 972. -/
def new_salary (f : ForecastInputs) : ℚ :=
  salary_portion f * (1 + f.wage_increase / 100) + fte_cost_change f

/-- app.py line 973. -/
def new_supplies (f : ForecastInputs) : ℚ :=
  supply_portion f * (1 + f.supply_inflation / 100) * (1 + f.volume_change / 100)

/-- app.py line 974. -/
def new_other (f : ForecastInputs) : ℚ :=
  other_portion f * (1 + f.volume_change / 100 * 0.5)

/-- app.py line 976. -/
def forecast_monthly_cost (f : ForecastInputs) : ℚ :=
  new_salary f + new_supplies f + new_other f

/-- app.py line 979. -/
def forecast_margin (f : ForecastInputs) : ℚ :=
  forecast_monthly_revenue f - forecast_monthly_cost f

/-- app.py line 980. -/
def baseline_margin (f : ForecastInputs) : ℚ :=
  f.baseline_visits * f.baseline_reimbursement - f.baseline_monthly_cost

/-- app.py line 1025. -/
def new_total_fte (f : ForecastInputs) : ℚ :=
  f.baseline_fte + f.provider_fte_change + f.rn_fte_change + f.ma_fte_change +
    f.admin_fte_change

/-- app.py line 1016: guarded division, fallback 0. -/
def cost_per_visit (f : ForecastInputs) : ℚ :=
  if effective_visits f > 0 then forecast_monthly_cost f / effective_visits f else 0

/-- app.py line 1026: guarded division, fallback 0. -/
def fte_per_1000 (f : ForecastInputs) : ℚ :=
  if effective_visits f > 0 then new_total_fte f / effective_visits f * 1000 else 0

/-- Widget bounds on the drivers (app.py lines 857-944): volume ±20 %,
productivity ±10 %, no-show ±5 pp, payer mix ±10 pp, supply inflation
0-15 %, wage increase 0-10 %, each FTE change in [-2, 5]. -/
def driversInBounds (f : ForecastInputs) : Prop :=
  -20 ≤ f.volume_change ∧ f.volume_change ≤ 20 ∧
  -10 ≤ f.productivity_change ∧ f.productivity_change ≤ 10 ∧
  -5 ≤ f.no_show_change ∧ f.no_show_change ≤ 5 ∧
  -10 ≤ f.payer_mix_shift ∧ f.payer_mix_shift ≤ 10 ∧
  0 ≤ f.supply_inflation ∧ f.supply_inflation ≤ 15 ∧
  0 ≤ f.wage_increase ∧ f.wage_increase ≤ 10 ∧
  -2 ≤ f.provider_fte_change ∧ f.provider_fte_change ≤ 5 ∧
  -2 ≤ f.rn_fte_change ∧ f.rn_fte_change ≤ 5 ∧
  -2 ≤ f.ma_fte_change ∧ f.ma_fte_change ≤ 5 ∧
  -2 ≤ f.admin_fte_change ∧ f.admin_fte_change ≤ 5

/-- The four baseline aggregates are non-negative. -/
def baselinesNonneg (f : ForecastInputs) : Prop :=
  0 ≤ f.baseline_visits ∧ 0 ≤ f.baseline_reimbursement ∧
    0 ≤ f.baseline_monthly_cost ∧ 0 ≤ f.baseline_fte

/-- All drivers at their neutral values. -/
def neutralDrivers (f : ForecastInputs) : Prop :=
  f.volume_change = 0 ∧ f.productivity_change = 0 ∧ f.no_show_change = 0 ∧
  f.payer_mix_shift = 0 ∧ f.supply_inflation = 0 ∧ f.wage_increase = 0 ∧
  f.provider_fte_change = 0 ∧ f.rn_fte_change = 0 ∧ f.ma_fte_change = 0 ∧
  f.admin_fte_change = 0

/-- The §8 scenario input: Cardiology baseline with +10 % volume, 3 %
supply inflation and a 3 % wage increase. -/
def scenarioForecast : ForecastInputs :=
  { baseline_visits := 1200
    baseline_reimbursement := 150
    baseline_monthly_cost := 600000
    baseline_fte := 12
    volume_change := 10
    productivity_change := 0
    no_show_change := 0
    payer_mix_shift := 0
    supply_inflation := 3
    wage_increase := 3
    provider_fte_change := 0
    rn_fte_change := 0
    ma_fte_change := 0
    admin_fte_change := 0 }

/-- Pandas float division, as at app.py line 515: a zero denominator does
not raise but produces a non-finite float (inf, or NaN for 0/0), which
we model as `none`. -/
def floatDiv (a b : ℚ) : Option ℚ := if b = 0 then none else some (a / b)

/-- The `variance_pct` column of `dept_summary` (app.py lines 515-516):
`(actual_amount - budget_amount) / budget_amount * 100`, with no guard on
the denominator. -/
def dept_summary_variance_pct (actual_amount budget_amount : ℚ) : Option ℚ :=
  (floatDiv (actual_amount - budget_amount) budget_amount).map (· * 100)

/-- A counterexample input for the claimed non-negativity of the forecast
cost: zero baselines and a cut of two provider FTEs, all within the
widget bounds. -/
def cexForecast : ForecastInputs :=
  { baseline_visits := 0
    baseline_reimbursement := 0
    baseline_monthly_cost := 0
    baseline_fte := 0
    volume_change := 0
    productivity_change := 0
    no_show_change := 0
    payer_mix_shift := 0
    supply_inflation := 0
    wage_increase := 0
    provider_fte_change := -2
    rn_fte_change := 0
    ma_fte_change := 0
    admin_fte_change := 0 }

/-- A forecast input with `baseline_visits = 0` and otherwise ordinary
values, for the division-by-zero guards. -/
def zeroVisitForecast : ForecastInputs :=
  { baseline_visits := 0
    baseline_reimbursement := 150
    baseline_monthly_cost := 600000
    baseline_fte := 12
    volume_change := 10
    productivity_change := 0
    no_show_change := 0
    payer_mix_shift := 0
    supply_inflation := 3
    wage_increase := 3
    provider_fte_change := 0
    rn_fte_change := 0
    ma_fte_change := 0
    admin_fte_change := 0 }

end HealthFinance

namespace HealthFinance

/-- Claim C4: with every driver at its neutral value, the forecast
reproduces the baseline exactly: revenue is `baseline_visits *
baseline_reimbursement` and cost is `baseline_monthly_cost`. -/
theorem forecast_neutral_identity (f : ForecastInputs) (h : neutralDrivers f) :
    forecast_monthly_revenue f = f.baseline_visits * f.baseline_reimbursement ∧
      forecast_monthly_cost f = f.baseline_monthly_cost := by
  obtain ⟨h1, h2, h3, h4, h5, h6, h7, h8, h9, h10⟩ := h
  constructor
  · simp only [forecast_monthly_revenue, effective_visits, new_reimbursement, h1, h2, h3, h4]
    ring
  · simp only [forecast_monthly_cost, new_salary, new_supplies, new_other, salary_portion,
      supply_portion, other_portion, fte_cost_change, h1, h5, h6, h7, h8, h9, h10]
    ring_nf

/-- Witness for C4: a concrete neutral-driver input. -/
theorem forecast_neutral_identity_witness :
    forecast_monthly_revenue
        { baseline_visits := 100, baseline_reimbursement := 50, baseline_monthly_cost := 1234,
          baseline_fte := 7, volume_change := 0, productivity_change := 0, no_show_change := 0,
          payer_mix_shift := 0, supply_inflation := 0, wage_increase := 0,
          provider_fte_change := 0, rn_fte_change := 0, ma_fte_change := 0,
          admin_fte_change := 0 } =
        (100 : ℚ) * 50 ∧
      forecast_monthly_cost
        { baseline_visits := 100, baseline_reimbursement := 50, baseline_monthly_cost := 1234,
          baseline_fte := 7, volume_change := 0, productivity_change := 0, no_show_change := 0,
          payer_mix_shift := 0, supply_inflation := 0, wage_increase := 0,
          provider_fte_change := 0, rn_fte_change := 0, ma_fte_change := 0,
          admin_fte_change := 0 } =
        (1234 : ℚ) :=
  forecast_neutral_identity _ (by exact ⟨rfl, rfl, rfl, rfl, rfl, rfl, rfl, rfl, rfl, rfl⟩)

/-- Claim C5: the §8 Cardiology scenario produces exactly the documented
intermediate and final figures. -/
theorem forecast_scenario_values :
    effective_visits scenarioForecast = 1320 ∧
      forecast_monthly_revenue scenarioForecast = 198000 ∧
      new_salary scenarioForecast = 370800 ∧
      new_supplies scenarioForecast = 135960 ∧
      new_other scenarioForecast = 126000 ∧
      forecast_monthly_cost scenarioForecast = 632760 ∧
      forecast_margin scenarioForecast = -434760 := by
  refine ⟨?_, ?_, ?_, ?_, ?_, ?_, ?_⟩ <;>
    norm_num [effective_visits, forecast_monthly_revenue, new_reimbursement, new_salary,
      new_supplies, new_other, forecast_monthly_cost, forecast_margin, salary_portion,
      supply_portion, other_portion, fte_cost_change, provider_cost, rn_cost, ma_cost,
      admin_cost, scenarioForecast]

end HealthFinance

namespace HealthFinance

/-- Counterexample to claim C2 as stated: with all four baselines equal
to 0 (all ≥ 0) and every driver at 0 except `provider_fte_change = -2`
(all within the documented bounds), the forecast cost is -40000 < 0. -/
theorem forecast_cost_nonneg_cex :
    baselinesNonneg cexForecast ∧ driversInBounds cexForecast ∧
      forecast_monthly_cost cexForecast < 0 := by
  refine ⟨?_, ?_, ?_⟩
  · norm_num [baselinesNonneg, cexForecast]
  · norm_num [driversInBounds, cexForecast]
  · norm_num [forecast_monthly_cost, new_salary, new_supplies, new_other, salary_portion,
      supply_portion, other_portion, fte_cost_change, provider_cost, rn_cost, ma_cost,
      admin_cost, cexForecast]

/-- Claim C2, amended: with non-negative baselines and all drivers within
the widget bounds, the forecast revenue is non-negative; the forecast cost
is non-negative provided additionally that the four FTE deltas are
non-negative (a negative FTE delta against a small enough baseline cost
makes the cost negative, cf. the counterexample). -/
theorem forecast_nonneg_amended (f : ForecastInputs) (hb : baselinesNonneg f)
    (hd : driversInBounds f) :
    0 ≤ forecast_monthly_revenue f ∧
      (0 ≤ f.provider_fte_change → 0 ≤ f.rn_fte_change → 0 ≤ f.ma_fte_change →
        0 ≤ f.admin_fte_change → 0 ≤ forecast_monthly_cost f) := by
  obtain ⟨hbv, hbr, hbc, hbf⟩ := hb
  obtain ⟨hv1, hv2, hp1, hp2, hn1, hn2, hm1, hm2, hs1, hs2, hw1, hw2, hf1, hf2, hf3, hf4,
    hf5, hf6, hf7, hf8⟩ := hd
  have h1 : (0 : ℚ) ≤ 1 + f.volume_change / 100 := by linarith
  have h2 : (0 : ℚ) ≤ 1 + f.productivity_change / 100 := by linarith
  have h3 : (0 : ℚ) ≤ 1 - f.no_show_change / 100 := by linarith
  have h4 : (0 : ℚ) ≤ 1 + f.payer_mix_shift * 0.02 := by linarith
  have h5 : (0 : ℚ) ≤ 1 + f.wage_increase / 100 := by linarith
  have h6 : (0 : ℚ) ≤ 1 + f.supply_inflation / 100 := by linarith
  have h7 : (0 : ℚ) ≤ 1 + f.volume_change / 100 * 0.5 := by linarith
  constructor
  · have hev : 0 ≤ effective_visits f :=
      mul_nonneg (mul_nonneg (mul_nonneg hbv h1) h2) h3
    have hnr : 0 ≤ new_reimbursement f := mul_nonneg hbr h4
    exact mul_nonneg hev hnr
  · intro hd1 hd2 hd3 hd4
    have hsal : 0 ≤ new_salary f := by
      have : 0 ≤ salary_portion f * (1 + f.wage_increase / 100) :=
        mul_nonneg (by unfold salary_portion; positivity) h5
      have hfcc : 0 ≤ fte_cost_change f := by
        unfold fte_cost_change provider_cost rn_cost ma_cost admin_cost
        positivity
      unfold new_salary
      linarith
    have hsup : 0 ≤ new_supplies f := by
      unfold new_supplies supply_portion
      exact mul_nonneg (mul_nonneg (by positivity) h6) h1
    have hoth : 0 ≤ new_other f := by
      unfold new_other other_portion
      exact mul_nonneg (by positivity) h7
    unfold forecast_monthly_cost
    linarith

/-- Witness for the amended C2 at the concrete scenario input. -/
theorem forecast_nonneg_amended_witness :
    0 ≤ forecast_monthly_revenue scenarioForecast ∧
      0 ≤ forecast_monthly_cost scenarioForecast := by
  obtain ⟨h1, h2⟩ :=
    forecast_nonneg_amended scenarioForecast
      (by norm_num [baselinesNonneg, scenarioForecast])
      (by norm_num [driversInBounds, scenarioForecast])
  exact ⟨h1, h2 (by norm_num [scenarioForecast]) (by norm_num [scenarioForecast])
    (by norm_num [scenarioForecast]) (by norm_num [scenarioForecast])⟩

/-- Claim C3, at the failing and the guarded sites: the `dept_summary`
variance percentage (app.py line 515) is unguarded, so a zero budget sum
yields a non-finite float, not the claimed fallback 0; the forecast KPIs
`cost_per_visit` and `fte_per_1000` (app.py lines 1016, 1026) do return
the fallback 0 when `baseline_visits = 0` makes `effective_visits = 0`. -/
theorem div_zero_guard_inconsistent :
    dept_summary_variance_pct 100 0 = none ∧
      dept_summary_variance_pct 100 0 ≠ some 0 ∧
      cost_per_visit zeroVisitForecast = 0 ∧
      fte_per_1000 zeroVisitForecast = 0 := by
  refine ⟨?_, ?_, ?_, ?_⟩
  · norm_num [dept_summary_variance_pct, floatDiv]
  · simp [dept_summary_variance_pct, floatDiv]
  · norm_num [cost_per_visit, effective_visits, zeroVisitForecast]
  · norm_num [fte_per_1000, effective_visits, zeroVisitForecast]

end HealthFinance

namespace HealthFinance

/-! ### Scorecard Engine (src/app.py lines 1385-1464) -/

/-- Per-department latest-period aggregates consumed by the scorecard
(app.py lines 1406-1441). `has_strategic_rows` records whether the
strategic table has any row for the department;
`active_initiative_count` is the number of those rows with status
Active. -/
structure ScorecardInputs where
  budget_sum : ℚ
  actual_sum : ℚ
  visits_actual : ℚ
  visits_budget : ℚ
  provider_wrvus : ℚ
  avg_wait_days : ℚ
  provider_fte : ℚ
  rn_fte : ℚ
  ma_fte : ℚ
  admin_fte : ℚ
  overtime_hours : ℚ
  patient_satisfaction : ℚ
  has_strategic_rows : Bool
  active_initiative_count : ℕ

/-- app.py lines 1411-1412: guarded, fallback 0. -/
def variance_pct (s : ScorecardInputs) : ℚ :=
  if s.budget_sum > 0 then (s.actual_sum - s.budget_sum) / s.budget_sum * 100 else 0

/-- app.py line 1413. -/
def budget_score (s : ScorecardInputs) : ℚ :=
  max 0 (min 100 (100 - |variance_pct s| * 5))

/-- app.py line 1416: guarded, fallback 0. -/
def volume_achievement (s : ScorecardInputs) : ℚ :=
  if s.visits_budget > 0 then s.visits_actual / s.visits_budget * 100 else 0

/-- app.py line 1417. -/
def volume_score (s : ScorecardInputs) : ℚ :=
  max 0 (min 100 (volume_achievement s))

/-- app.py line 1420: upper clamp only. -/
def productivity_score (s : ScorecardInputs) : ℚ :=
  min 100 (s.provider_wrvus / 4000 * 100)

/-- app.py lines 1423-1424. -/
def access_score (s : ScorecardInputs) : ℚ :=
  max 0 (min 100 (100 - (s.avg_wait_days - 1) * 25))

/-- app.py lines 1427-1428. -/
def total_hours (s : ScorecardInputs) : ℚ :=
  (s.provider_fte + s.rn_fte + s.ma_fte + s.admin_fte) * 160

/-- app.py line 1429: guarded, fallback 0. -/
def overtime_ratio (s : ScorecardInputs) : ℚ :=
  if total_hours s > 0 then s.overtime_hours / total_hours s * 100 else 0

/-- app.py line 1430. -/
def overtime_score (s : ScorecardInputs) : ℚ :=
  max 0 (min 100 (100 - overtime_ratio s * 10))

/-- app.py line 1433: the raw satisfaction value, no clamp in the code. -/
def satisfaction_score (s : ScorecardInputs) : ℚ := s.patient_satisfaction

/-- app.py lines 1436-1441. -/
def strategic_score (s : ScorecardInputs) : ℚ :=
  if s.has_strategic_rows then min 100 (70 + (s.active_initiative_count : ℚ) * 10) else 70

/-- app.py lines 1444-1452. -/
def composite_score (s : ScorecardInputs) : ℚ :=
  budget_score s * 0.15 + volume_score s * 0.15 + productivity_score s * 0.20 +
    access_score s * 0.10 + overtime_score s * 0.10 + satisfaction_score s * 0.10 +
    strategic_score s * 0.20

/-- The seven composite weights in scorecard order (the literal
coefficients of app.py lines 1444-1452). -/
def scorecard_weights : List ℚ := [0.15, 0.15, 0.20, 0.10, 0.10, 0.10, 0.20]

end HealthFinance

namespace HealthFinance

/-- Every value of the form `max 0 (min 100 z)` lies in [0, 100]. -/
lemma clamp_mem (z : ℚ) : 0 ≤ max 0 (min 100 z) ∧ max 0 (min 100 z) ≤ 100 :=
  ⟨le_max_left 0 _, max_le (by norm_num) (min_le_left 100 z)⟩

/-- Claim C1: for scorecard inputs within the data-model ranges
(`provider_wrvus ≥ 0`, `patient_satisfaction ∈ [0,100]`), each of the
seven sub-scores lies in [0,100], the seven fixed weights sum to exactly
1, and consequently the composite score lies in [0,100]. -/
theorem scorecard_composite_in_range (s : ScorecardInputs)
    (hw : 0 ≤ s.provider_wrvus) (hs0 : 0 ≤ s.patient_satisfaction)
    (hs1 : s.patient_satisfaction ≤ 100) :
    (0 ≤ budget_score s ∧ budget_score s ≤ 100) ∧
      (0 ≤ volume_score s ∧ volume_score s ≤ 100) ∧
      (0 ≤ productivity_score s ∧ productivity_score s ≤ 100) ∧
      (0 ≤ access_score s ∧ access_score s ≤ 100) ∧
      (0 ≤ overtime_score s ∧ overtime_score s ≤ 100) ∧
      (0 ≤ satisfaction_score s ∧ satisfaction_score s ≤ 100) ∧
      (0 ≤ strategic_score s ∧ strategic_score s ≤ 100) ∧
      scorecard_weights.sum = 1 ∧
      (0 ≤ composite_score s ∧ composite_score s ≤ 100) := by
  have hb : 0 ≤ budget_score s ∧ budget_score s ≤ 100 := clamp_mem _
  have hv : 0 ≤ volume_score s ∧ volume_score s ≤ 100 := clamp_mem _
  have ha : 0 ≤ access_score s ∧ access_score s ≤ 100 := clamp_mem _
  have ho : 0 ≤ overtime_score s ∧ overtime_score s ≤ 100 := clamp_mem _
  have hp : 0 ≤ productivity_score s ∧ productivity_score s ≤ 100 := by
    constructor
    · exact le_min (by norm_num) (by positivity)
    · exact min_le_left _ _
  have hst : 0 ≤ strategic_score s ∧ strategic_score s ≤ 100 := by
    unfold strategic_score
    split
    · constructor
      · exact le_min (by norm_num) (by positivity)
      · exact min_le_left _ _
    · norm_num
  refine ⟨hb, hv, hp, ha, ho, ⟨hs0, hs1⟩, hst, by norm_num [scorecard_weights], ?_, ?_⟩
  · unfold composite_score satisfaction_score
    obtain ⟨hp0, hp1⟩ := hp
    obtain ⟨hst0, hst1⟩ := hst
    linarith [hb.1, hv.1, ha.1, ho.1]
  · unfold composite_score satisfaction_score
    obtain ⟨hp0, hp1⟩ := hp
    obtain ⟨hst0, hst1⟩ := hst
    linarith [hb.2, hv.2, ha.2, ho.2]

/-- Witness for C1 at a concrete in-range scorecard input. -/
theorem scorecard_composite_in_range_witness :
    0 ≤ composite_score
        { budget_sum := 1000000, actual_sum := 1050000, visits_actual := 1150,
          visits_budget := 1200, provider_wrvus := 3600, avg_wait_days := 3,
          provider_fte := 5, rn_fte := 4, ma_fte := 3, admin_fte := 2,
          overtime_hours := 120, patient_satisfaction := 82,
          has_strategic_rows := true, active_initiative_count := 2 } ∧
      composite_score
        { budget_sum := 1000000, actual_sum := 1050000, visits_actual := 1150,
          visits_budget := 1200, provider_wrvus := 3600, avg_wait_days := 3,
          provider_fte := 5, rn_fte := 4, ma_fte := 3, admin_fte := 2,
          overtime_hours := 120, patient_satisfaction := 82,
          has_strategic_rows := true, active_initiative_count := 2 } ≤ 100 :=
  (scorecard_composite_in_range _ (by norm_num) (by norm_num) (by norm_num)).2.2.2.2.2.2.2.2

/-- Claim C10: when the four FTE columns sum to 0, the overtime ratio
takes its zero-denominator fallback 0 and the overtime sub-score is
exactly 100, whatever the recorded overtime hours. -/
theorem overtime_score_zero_fte (s : ScorecardInputs)
    (h : s.provider_fte + s.rn_fte + s.ma_fte + s.admin_fte = 0) :
    overtime_ratio s = 0 ∧ overtime_score s = 100 := by
  have ht : total_hours s = 0 := by
    unfold total_hours
    rw [h]
    ring
  have hr : overtime_ratio s = 0 := by
    unfold overtime_ratio
    rw [ht]
    norm_num
  refine ⟨hr, ?_⟩
  unfold overtime_score
  rw [hr]
  norm_num

/-- Witness for C10: zero FTEs in every role but 500 overtime hours. -/
theorem overtime_score_zero_fte_witness :
    overtime_ratio
        { budget_sum := 1000000, actual_sum := 1050000, visits_actual := 1150,
          visits_budget := 1200, provider_wrvus := 3600, avg_wait_days := 3,
          provider_fte := 0, rn_fte := 0, ma_fte := 0, admin_fte := 0,
          overtime_hours := 500, patient_satisfaction := 82,
          has_strategic_rows := false, active_initiative_count := 0 } = 0 ∧
      overtime_score
        { budget_sum := 1000000, actual_sum := 1050000, visits_actual := 1150,
          visits_budget := 1200, provider_wrvus := 3600, avg_wait_days := 3,
          provider_fte := 0, rn_fte := 0, ma_fte := 0, admin_fte := 0,
          overtime_hours := 500, patient_satisfaction := 82,
          has_strategic_rows := false, active_initiative_count := 0 } = 100 :=
  overtime_score_zero_fte _ (by norm_num)

end HealthFinance

namespace HealthFinance

/-! ### Equity Adjustment Engine (src/app.py lines 1615-1648) -/

/-- One department's equity profile plus its base monthly budget
(app.py lines 1582-1620). -/
structure EquityInputs where
  svi_score : ℚ
  medicaid_pct : ℚ
  complexity_pct : ℚ
  language_pct : ℚ
  transit_score : ℚ
  base_monthly_budget : ℚ

/-- app.py lines 1625-1628: the SVI entry of the adjustments dict. -/
def sviEntries (e : EquityInputs) : List (String × ℚ) :=
  if e.svi_score > 0.75 then [("High SVI Population", e.base_monthly_budget * 0.08)]
  else if e.svi_score > 0.5 then [("Moderate SVI Population", e.base_monthly_budget * 0.04)]
  else []

/-- app.py lines 1630-1633. -/
def medicaidEntries (e : EquityInputs) : List (String × ℚ) :=
  if e.medicaid_pct > 0.4 then [("High Medicaid Mix", e.base_monthly_budget * 0.06)]
  else if e.medicaid_pct > 0.3 then [("Above-Avg Medicaid", e.base_monthly_budget * 0.03)]
  else []

/-- app.py lines 1635-1638. -/
def complexityEntries (e : EquityInputs) : List (String × ℚ) :=
  if e.complexity_pct > 0.3 then [("Complex Patient Mix", e.base_monthly_budget * 0.10)]
  else if e.complexity_pct > 0.2 then [("Moderate Complexity", e.base_monthly_budget * 0.05)]
  else []

/-- app.py lines 1640-1641. -/
def languageEntries (e : EquityInputs) : List (String × ℚ) :=
  if e.language_pct > 0.15 then [("Language Services", e.base_monthly_budget * 0.03)] else []

/-- app.py lines 1643-1644. -/
def transitEntries (e : EquityInputs) : List (String × ℚ) :=
  if e.transit_score < 0.5 then [("Transportation Support", e.base_monthly_budget * 0.02)]
  else []

/-- app.py lines 1623-1644: the itemized (reason, amount) adjustments.
The dict keys are pairwise distinct string literals, so the dict is
faithfully a concatenation of the per-indicator entries. -/
def adjustments (e : EquityInputs) : List (String × ℚ) :=
  sviEntries e ++ medicaidEntries e ++ complexityEntries e ++ languageEntries e ++
    transitEntries e

/-- app.py line 1647: `sum(adjustments.values())`. -/
def total_adjustment (e : EquityInputs) : ℚ :=
  ((adjustments e).map Prod.snd).sum

/-- app.py line 1648. -/
def equity_budget (e : EquityInputs) : ℚ :=
  e.base_monthly_budget + total_adjustment e

/-- Modelled from the spec rule table (§4.4): the SVI indicator
contributes 8 % of the base budget above 0.75, else 4 % above 0.5,
else 0. -/
def sviContribution (e : EquityInputs) : ℚ :=
  if e.svi_score > 0.75 then e.base_monthly_budget * 0.08
  else if e.svi_score > 0.5 then e.base_monthly_budget * 0.04
  else 0

/-- Modelled from the spec rule table (§4.4): Medicaid share contributes
6 % above 0.4, else 3 % above 0.3, else 0. -/
def medicaidContribution (e : EquityInputs) : ℚ :=
  if e.medicaid_pct > 0.4 then e.base_monthly_budget * 0.06
  else if e.medicaid_pct > 0.3 then e.base_monthly_budget * 0.03
  else 0

/-- Modelled from the spec rule table (§4.4): complexity contributes 10 %
above 0.3, else 5 % above 0.2, else 0. -/
def complexityContribution (e : EquityInputs) : ℚ :=
  if e.complexity_pct > 0.3 then e.base_monthly_budget * 0.10
  else if e.complexity_pct > 0.2 then e.base_monthly_budget * 0.05
  else 0

/-- Modelled from the spec rule table (§4.4): language barrier contributes
3 % above 0.15, else 0. -/
def languageContribution (e : EquityInputs) : ℚ :=
  if e.language_pct > 0.15 then e.base_monthly_budget * 0.03 else 0

/-- Modelled from the spec rule table (§4.4): transit access below 0.5
contributes 2 %, else 0. -/
def transitContribution (e : EquityInputs) : ℚ :=
  if e.transit_score < 0.5 then e.base_monthly_budget * 0.02 else 0

/-- The §8 equity scenario input. -/
def scenarioEquity : EquityInputs :=
  { svi_score := 0.8
    medicaid_pct := 0.45
    complexity_pct := 0.35
    language_pct := 0.20
    transit_score := 0.4
    base_monthly_budget := 500000 }

end HealthFinance

namespace HealthFinance

lemma sviEntries_sum (e : EquityInputs) :
    ((sviEntries e).map Prod.snd).sum = sviContribution e := by
  unfold sviEntries sviContribution
  split_ifs <;> simp

lemma medicaidEntries_sum (e : EquityInputs) :
    ((medicaidEntries e).map Prod.snd).sum = medicaidContribution e := by
  unfold medicaidEntries medicaidContribution
  split_ifs <;> simp

lemma complexityEntries_sum (e : EquityInputs) :
    ((complexityEntries e).map Prod.snd).sum = complexityContribution e := by
  unfold complexityEntries complexityContribution
  split_ifs <;> simp

lemma languageEntries_sum (e : EquityInputs) :
    ((languageEntries e).map Prod.snd).sum = languageContribution e := by
  unfold languageEntries languageContribution
  split_ifs <;> simp

lemma transitEntries_sum (e : EquityInputs) :
    ((transitEntries e).map Prod.snd).sum = transitContribution e := by
  unfold transitEntries transitContribution
  split_ifs <;> simp

/-- The code's summed dict equals the spec's five per-indicator tier
contributions. -/
lemma total_adjustment_eq (e : EquityInputs) :
    total_adjustment e =
      sviContribution e + medicaidContribution e + complexityContribution e +
        languageContribution e + transitContribution e := by
  unfold total_adjustment adjustments
  simp only [List.map_append, List.sum_append, sviEntries_sum, medicaidEntries_sum,
    complexityEntries_sum, languageEntries_sum, transitEntries_sum]

/-- A two-tier rule is monotone in its indicator when the base is
non-negative and the higher tier pays at least the lower one. -/
lemma twoTier_mono (b c1 c2 p1 p2 s t : ℚ) (hb : 0 ≤ b) (hp : p2 ≤ p1) (hp2 : 0 ≤ p2)
    (hst : s ≤ t) :
    (if c1 < s then b * p1 else if c2 < s then b * p2 else 0) ≤
      (if c1 < t then b * p1 else if c2 < t then b * p2 else 0) := by
  have hbp2 : 0 ≤ b * p2 := mul_nonneg hb hp2
  have hbp1 : 0 ≤ b * p1 := mul_nonneg hb (le_trans hp2 hp)
  have hple : b * p2 ≤ b * p1 := mul_le_mul_of_nonneg_left hp hb
  by_cases h1 : c1 < s
  · rw [if_pos h1, if_pos (lt_of_lt_of_le h1 hst)]
  · rw [if_neg h1]
    by_cases h2 : c2 < s
    · rw [if_pos h2]
      by_cases h3 : c1 < t
      · rw [if_pos h3]
        exact hple
      · rw [if_neg h3, if_pos (lt_of_lt_of_le h2 hst)]
    · rw [if_neg h2]
      by_cases h3 : c1 < t
      · rw [if_pos h3]
        exact hbp1
      · rw [if_neg h3]
        by_cases h4 : c2 < t
        · rw [if_pos h4]
          exact hbp2
        · rw [if_neg h4]

end HealthFinance

namespace HealthFinance

/-- Claim C6: for every input the equity budget is the base budget plus
the sum of the itemized contributions; the total decomposes into one
tiered contribution per indicator (each a percentage of the base, 0 when
unmatched), each indicator contributing at most one entry; and the §8
scenario yields the documented itemized amounts, total 145000 and equity
budget 645000. -/
theorem equity_budget_decomposition :
    (∀ e : EquityInputs,
        equity_budget e = e.base_monthly_budget + total_adjustment e ∧
          total_adjustment e =
            sviContribution e + medicaidContribution e + complexityContribution e +
              languageContribution e + transitContribution e ∧
          (sviEntries e).length ≤ 1 ∧ (medicaidEntries e).length ≤ 1 ∧
          (complexityEntries e).length ≤ 1 ∧ (languageEntries e).length ≤ 1 ∧
          (transitEntries e).length ≤ 1) ∧
      adjustments scenarioEquity =
        [("High SVI Population", 40000), ("High Medicaid Mix", 30000),
          ("Complex Patient Mix", 50000), ("Language Services", 15000),
          ("Transportation Support", 10000)] ∧
      total_adjustment scenarioEquity = 145000 ∧
      equity_budget scenarioEquity = 645000 := by
  have hadj : adjustments scenarioEquity =
      [("High SVI Population", 40000), ("High Medicaid Mix", 30000),
        ("Complex Patient Mix", 50000), ("Language Services", 15000),
        ("Transportation Support", 10000)] := by
    norm_num [adjustments, sviEntries, medicaidEntries, complexityEntries, languageEntries,
      transitEntries, scenarioEquity]
  refine ⟨fun e => ⟨rfl, total_adjustment_eq e, ?_, ?_, ?_, ?_, ?_⟩, hadj, ?_, ?_⟩
  · unfold sviEntries
    split_ifs <;> simp
  · unfold medicaidEntries
    split_ifs <;> simp
  · unfold complexityEntries
    split_ifs <;> simp
  · unfold languageEntries
    split_ifs <;> simp
  · unfold transitEntries
    split_ifs <;> simp
  · rw [total_adjustment, hadj]
    norm_num
  · rw [equity_budget, total_adjustment, hadj]
    norm_num [scenarioEquity]

/-- Claim C7: for a non-negative base budget, raising any one of the SVI
score, the Medicaid share or the complexity share (the other fields and
the base unchanged) never decreases the total equity adjustment. -/
theorem equity_adjustment_monotone (e : EquityInputs) (x y : ℚ)
    (hbase : 0 ≤ e.base_monthly_budget) (hxy : x ≤ y) :
    total_adjustment { e with svi_score := x } ≤
        total_adjustment { e with svi_score := y } ∧
      total_adjustment { e with medicaid_pct := x } ≤
        total_adjustment { e with medicaid_pct := y } ∧
      total_adjustment { e with complexity_pct := x } ≤
        total_adjustment { e with complexity_pct := y } := by
  refine ⟨?_, ?_, ?_⟩
  · rw [total_adjustment_eq, total_adjustment_eq]
    have h1 : sviContribution { e with svi_score := x } ≤
        sviContribution { e with svi_score := y } := by
      unfold sviContribution
      exact twoTier_mono e.base_monthly_budget 0.75 0.5 0.08 0.04 x y hbase (by norm_num)
        (by norm_num) hxy
    have h2 : medicaidContribution { e with svi_score := x } =
        medicaidContribution { e with svi_score := y } := rfl
    have h3 : complexityContribution { e with svi_score := x } =
        complexityContribution { e with svi_score := y } := rfl
    have h4 : languageContribution { e with svi_score := x } =
        languageContribution { e with svi_score := y } := rfl
    have h5 : transitContribution { e with svi_score := x } =
        transitContribution { e with svi_score := y } := rfl
    rw [h2, h3, h4, h5]
    linarith
  · rw [total_adjustment_eq, total_adjustment_eq]
    have h1 : medicaidContribution { e with medicaid_pct := x } ≤
        medicaidContribution { e with medicaid_pct := y } := by
      unfold medicaidContribution
      exact twoTier_mono e.base_monthly_budget 0.4 0.3 0.06 0.03 x y hbase (by norm_num)
        (by norm_num) hxy
    have h2 : sviContribution { e with medicaid_pct := x } =
        sviContribution { e with medicaid_pct := y } := rfl
    have h3 : complexityContribution { e with medicaid_pct := x } =
        complexityContribution { e with medicaid_pct := y } := rfl
    have h4 : languageContribution { e with medicaid_pct := x } =
        languageContribution { e with medicaid_pct := y } := rfl
    have h5 : transitContribution { e with medicaid_pct := x } =
        transitContribution { e with medicaid_pct := y } := rfl
    rw [h2, h3, h4, h5]
    linarith
  · rw [total_adjustment_eq, total_adjustment_eq]
    have h1 : complexityContribution { e with complexity_pct := x } ≤
        complexityContribution { e with complexity_pct := y } := by
      unfold complexityContribution
      exact twoTier_mono e.base_monthly_budget 0.3 0.2 0.10 0.05 x y hbase (by norm_num)
        (by norm_num) hxy
    have h2 : sviContribution { e with complexity_pct := x } =
        sviContribution { e with complexity_pct := y } := rfl
    have h3 : medicaidContribution { e with complexity_pct := x } =
        medicaidContribution { e with complexity_pct := y } := rfl
    have h4 : languageContribution { e with complexity_pct := x } =
        languageContribution { e with complexity_pct := y } := rfl
    have h5 : transitContribution { e with complexity_pct := x } =
        transitContribution { e with complexity_pct := y } := rfl
    rw [h2, h3, h4, h5]
    linarith

/-- Witness for C7 at the scenario profile, raising each indicator from
0.15 to 0.6. -/
theorem equity_adjustment_monotone_witness :
    total_adjustment { scenarioEquity with svi_score := 0.15 } ≤
        total_adjustment { scenarioEquity with svi_score := 0.6 } ∧
      total_adjustment { scenarioEquity with medicaid_pct := 0.15 } ≤
        total_adjustment { scenarioEquity with medicaid_pct := 0.6 } ∧
      total_adjustment { scenarioEquity with complexity_pct := 0.15 } ≤
        total_adjustment { scenarioEquity with complexity_pct := 0.6 } :=
  equity_adjustment_monotone scenarioEquity 0.15 0.6
    (by norm_num [scenarioEquity]) (by norm_num)

end HealthFinance

namespace HealthFinance

/-! ### 12-period projection (src/app.py lines 1057-1075) -/

/-- app.py line 1061: `1 + 0.05 * np.sin(i * np.pi / 6)`. -/
noncomputable def seasonal_factor (i : ℕ) : ℝ :=
  1 + 0.05 * Real.sin ((i : ℝ) * Real.pi / 6)

/-- One entry of the `forecast_data` list (app.py lines 1067-1075). -/
structure ForecastRow where
  Revenue : ℝ
  Cost : ℝ
  Margin : ℝ
  BaselineRevenue : ℝ
  BaselineCost : ℝ
  BaselineMargin : ℝ

/-- app.py lines 1060-1075: the period-i row of the projection. -/
noncomputable def forecast_row (f : ForecastInputs) (i : ℕ) : ForecastRow :=
  let month_revenue : ℝ := (forecast_monthly_revenue f : ℝ) * seasonal_factor i
  let month_cost : ℝ := (forecast_monthly_cost f : ℝ) * seasonal_factor i
  { Revenue := month_revenue
    Cost := month_cost
    Margin := month_revenue - month_cost
    BaselineRevenue := (f.baseline_visits : ℝ) * (f.baseline_reimbursement : ℝ)
    BaselineCost := (f.baseline_monthly_cost : ℝ)
    BaselineMargin := (baseline_margin f : ℝ) }

/-! ### Change-request session log (src/app.py lines 20-21, 1700-1765) -/

structure ChangeRequest where
  request_id : String
  date_submitted : ℕ
  department : String
  request_type : String
  details : String
  justification : String
  effective_date : ℕ
  status : String

/-- Zero padding of the request number, as in the Python format
`CR-{n:04d}`. -/
def pad4 (n : ℕ) : String :=
  let s := toString n
  String.mk (List.replicate (4 - s.length) '0') ++ s

/-- app.py lines 1735-1744: the submitted record; its status is the
literal `Pending`. -/
def new_request (log : List ChangeRequest) (now : ℕ)
    (department request_type details justification : String)
    (effective_date : ℕ) : ChangeRequest :=
  { request_id := "CR-" ++ pad4 (log.length + 1)
    date_submitted := now
    department := department
    request_type := request_type
    details := details
    justification := justification
    effective_date := effective_date
    status := "Pending" }

/-- app.py line 1746: the only mutation of the session log is this
append. -/
def submitRequest (log : List ChangeRequest) (now : ℕ)
    (department request_type details justification : String)
    (effective_date : ℕ) : List ChangeRequest :=
  log ++ [new_request log now department request_type details justification effective_date]

/-- Session states reachable from the empty log (app.py line 21) by user
submissions, the only operation in the program that touches the log. -/
inductive ReachableLog : List ChangeRequest → Prop
  | init : ReachableLog []
  | submit (log : List ChangeRequest) (now : ℕ)
      (department request_type details justification : String) (effective_date : ℕ) :
      ReachableLog log →
      ReachableLog (submitRequest log now department request_type details justification
        effective_date)

/-- app.py line 1761. -/
def pending_count (log : List ChangeRequest) : ℕ :=
  (log.filter (fun r => r.status == "Pending")).length

/-- app.py line 1764: the displayed Approved metric. -/
def approved_count (log : List ChangeRequest) : ℕ :=
  (log.filter (fun r => r.status == "Approved")).length

end HealthFinance

namespace HealthFinance

/-- Claim C8: each period's projected revenue and cost are the single
period forecast times the seasonal multiplier `1 + 0.05*sin(i*pi/6)`, the
period margin is exactly their difference, and the baseline revenue,
cost, and margin comparison lines take the same value in every period. -/
theorem forecast_projection_seasonal (f : ForecastInputs) (i j : ℕ) :
    (forecast_row f i).Revenue =
        (forecast_monthly_revenue f : ℝ) * (1 + 0.05 * Real.sin ((i : ℝ) * Real.pi / 6)) ∧
      (forecast_row f i).Cost =
        (forecast_monthly_cost f : ℝ) * (1 + 0.05 * Real.sin ((i : ℝ) * Real.pi / 6)) ∧
      (forecast_row f i).Margin = (forecast_row f i).Revenue - (forecast_row f i).Cost ∧
      (forecast_row f i).BaselineRevenue = (forecast_row f j).BaselineRevenue ∧
      (forecast_row f i).BaselineCost = (forecast_row f j).BaselineCost ∧
      (forecast_row f i).BaselineMargin = (forecast_row f j).BaselineMargin :=
  ⟨rfl, rfl, rfl, rfl, rfl, rfl⟩

/-- Claim C9: in every reachable session state all logged requests have
status `Pending`, and the displayed Approved count is 0. -/
theorem change_requests_all_pending (log : List ChangeRequest) (h : ReachableLog log) :
    (∀ r ∈ log, r.status = "Pending") ∧ approved_count log = 0 := by
  have hall : ∀ r ∈ log, r.status = "Pending" := by
    induction h with
    | init =>
        intro r hr
        simp at hr
    | submit log now department request_type details justification effective_date hlog ih =>
        intro r hr
        rcases List.mem_append.mp hr with h1 | h2
        · exact ih r h1
        · rw [List.mem_singleton] at h2
          subst h2
          rfl
  refine ⟨hall, ?_⟩
  rw [approved_count, List.length_eq_zero, List.filter_eq_nil_iff]
  intro r hr
  have hp := hall r hr
  simp [hp]

/-- Witness for C9: the state after one concrete submission. -/
theorem change_requests_all_pending_witness :
    (∀ r ∈ submitRequest [] 0 "Cardiology" "Add FTE" "Add 1.0 RN" "coverage" 30,
        r.status = "Pending") ∧
      approved_count (submitRequest [] 0 "Cardiology" "Add FTE" "Add 1.0 RN" "coverage" 30) =
        0 :=
  change_requests_all_pending _
    (ReachableLog.submit [] 0 "Cardiology" "Add FTE" "Add 1.0 RN" "coverage" 30
      ReachableLog.init)

end HealthFinance
